import Mathlib

/-!
Verification of the DAFT device lifecycle orchestration core.

This file gives a shallow embedding, in Lean, of the control flow of the
retry / reservation / blacklist logic of the DAFT repository, and proves
(or refutes) the frozen claims about it.

The embedding is translated from the Python sources:
  * `aft/devices/pc_device.py`      (`PCDevice._enter_mode`,
                                     `PCDevice._install_tester_public_key`)
  * `aft/internal/devices_manager.py` (`DevicesManager._flash`,
                                     `DevicesManager._do_reserve`,
                                     `DevicesManager._release`)
  * `daft/modes/common.py`          (`_reserve_device`, `release_device`)
  * `daft/modes/flash_mode.py`      (`FlashMode.execute`)

External effects (power cutter, keyboard emulator, remote execution, the
filesystem) are modelled by explicit environments: each call site that can
succeed, raise a non-interrupt exception, or be hit by a KeyboardInterrupt
is given by an `Outcome` value supplied by the environment.
-/

set_option linter.unusedVariables false

/-- Outcome of one external call (a remote execution, a cutter operation,
a keyboard-emulator operation, ...): it returns a value, raises an
ordinary (non-interrupt) exception, or is hit by a KeyboardInterrupt. -/
inductive Outcome (α : Type) where
  | ok (a : α)
  | error
  | interrupt
deriving DecidableEq, Repr

/-- `Outcome.isOk o` holds when the call returned normally. -/
def Outcome.isOk {α : Type} : Outcome α → Bool
  | .ok _ => true
  | _ => false

/-- Python truthiness of a `str`-or-`None` value: `None` and the empty
string are falsy. `PCDevice._enter_mode` tests `if ip_address and ...`. -/
def pyTruthy : Option String → Bool
  | none => false
  | some s => !s.isEmpty

/-! ## Boot-mode state machine: `PCDevice._enter_mode`
    (`aft/devices/pc_device.py`, lines 132-179) -/

/-- Environment of one attempt of the `_enter_mode` retry loop: the
outcome of every external call the attempt body makes, in source order.

* `relay`      : `self._set_boot_relay(target)`
* `powerCycle` : `self._power_cycle()`
* `kbPresent`  : truthiness of `self.kb_emulator`
* `keystrokes` : `self.kb_emulator.send_keystrokes(keystrokes)` (only
                 reached when `kbPresent`)
* `waitIp`     : `self.wait_for_responsive_ip()` — returns the device ip
                 (also stored in `self.device_ip`), or `none` when no
                 responsive address was found before the timeout
* `verify`     : `common.verify_device_mode(self.device_ip, ...)` —
                 returns whether the DUT was seen in service mode
* `hooks`      : `self._post_boot_hooks(target)` -/
structure AttemptEnv where
  relay : Outcome Unit
  powerCycle : Outcome Unit
  kbPresent : Bool
  keystrokes : Outcome Unit
  waitIp : Outcome (Option String)
  verify : Outcome Bool
  hooks : Outcome Unit
deriving DecidableEq, Repr

/-- Events of one `_enter_mode` attempt, recorded when the corresponding
call is made (even if that call then raises). -/
inductive Ev where
  | setBootRelay
  | powerCycle
  | sendKeystrokes
  | waitIp
  | verifyMode
  | postBootHooks
deriving DecidableEq, Repr

/-- Result of one iteration of the `_enter_mode` retry loop body:
`success` is the `return` at line 169; `failure` is the `else` branch
(line 170-171) that logs and falls to the next iteration; `raised` is a
non-interrupt exception caught by the bare `except:` (line 174);
`interrupted` is a KeyboardInterrupt re-raised at line 172-173. -/
inductive AttemptResult where
  | success
  | failure
  | raised
  | interrupted
deriving DecidableEq, Repr

/-- One iteration of the `try:` body of `PCDevice._enter_mode`
(`pc_device.py` lines 150-171), returning the trace of calls made and how
the iteration ended.  The success test is the source's
`booted_in_required_mode` conjunction at lines 162-165. -/
def attemptRun (target : String) (env : AttemptEnv) : List Ev × AttemptResult :=
  let t1 := [Ev.setBootRelay]
  match env.relay with
  | .interrupt => (t1, .interrupted)
  | .error => (t1, .raised)
  | .ok _ =>
    let t2 := t1 ++ [Ev.powerCycle]
    match env.powerCycle with
    | .interrupt => (t2, .interrupted)
    | .error => (t2, .raised)
    | .ok _ =>
      let tk := if env.kbPresent then t2 ++ [Ev.sendKeystrokes] else t2
      let kbOutcome := if env.kbPresent then env.keystrokes else Outcome.ok ()
      match kbOutcome with
      | .interrupt => (tk, .interrupted)
      | .error => (tk, .raised)
      | .ok _ =>
        let t3 := tk ++ [Ev.waitIp]
        match env.waitIp with
        | .interrupt => (t3, .interrupted)
        | .error => (t3, .raised)
        | .ok ip =>
          let t4 := t3 ++ [Ev.verifyMode]
          match env.verify with
          | .interrupt => (t4, .interrupted)
          | .error => (t4, .raised)
          | .ok dutInServiceMode =>
            let bootedInRequiredMode :=
              (dutInServiceMode && (target == "service_mode")) ||
              (!dutInServiceMode && (target == "test_mode"))
            if pyTruthy ip && bootedInRequiredMode then
              let t5 := t4 ++ [Ev.postBootHooks]
              match env.hooks with
              | .interrupt => (t5, .interrupted)
              | .error => (t5, .raised)
              | .ok _ => (t5, .success)
            else (t4, .failure)

/-- Result of `PCDevice._enter_mode`.  The `Nat` argument is the number
of loop iterations (attempts) performed before the function ended. -/
inductive EnterResult where
  | success (attempts : Nat)
  | interrupted (attempts : Nat)
  | deviceErrorExhausted (attempts : Nat)
  | deviceErrorBadTarget
deriving DecidableEq, Repr

/-- The `for _ in range(self._RETRY_ATTEMPTS)` loop of `_enter_mode`
(`pc_device.py` lines 149-179).  `i` counts attempts already performed;
`fuel` is the number of loop iterations still available (the `for` loop
runs exactly `_RETRY_ATTEMPTS` iterations unless it returns or raises
first, so `enter_mode` below starts with `fuel = retries`).  When the
fuel is exhausted the `raise errors.AFTDeviceError` at line 179 fires. -/
def enter_mode_loop (target : String) (envs : Nat → AttemptEnv) (i : Nat) :
    Nat → EnterResult
  | 0 => .deviceErrorExhausted i
  | fuel + 1 =>
    match (attemptRun target (envs i)).2 with
    | .success => .success (i + 1)
    | .interrupted => .interrupted (i + 1)
    | .failure => enter_mode_loop target envs (i + 1) fuel
    | .raised => enter_mode_loop target envs (i + 1) fuel

/-- `PCDevice._enter_mode(target, keystrokes)` (`pc_device.py`
lines 132-179): the guard at line 143 raises `AFTDeviceError` for a bad
target, then the retry loop runs up to `retries` attempts
(`_RETRY_ATTEMPTS` in the source, a class constant of value 4). -/
def enter_mode (target : String) (envs : Nat → AttemptEnv) (retries : Nat) :
    EnterResult :=
  if target == "test_mode" || target == "service_mode" then
    enter_mode_loop target envs 0 retries
  else .deviceErrorBadTarget

/-- `PCDevice._RETRY_ATTEMPTS` (`pc_device.py` line 41). -/
def RETRY_ATTEMPTS : Nat := 4

/-! ## Flash retry loop: `DevicesManager._flash`
    (`aft/internal/devices_manager.py`, lines 240-265) -/

/-- Outcome of `device.write_image(args.file_name)` on a given attempt. -/
inductive FlashOutcome where
  | ok
  | error
  | interrupt
deriving DecidableEq, Repr

/-- How `DevicesManager._flash` ended. `deviceReturned` is the
`return device` (line 251); `reraised` is the bare `raise` after
`self._release(device)` on exhaustion (lines 259-260); `interrupted` is
the KeyboardInterrupt re-raise (lines 252-253); `noneReturned` is the
implicit `return None` when the `while` guard fails. -/
inductive FlashResult where
  | deviceReturned
  | reraised
  | interrupted
  | noneReturned
deriving DecidableEq, Repr

/-- Observable outcome of `DevicesManager._flash`: how many write
attempts were made, whether `self._release(device)` was called by the
loop, and how the call ended. -/
structure FlashRes where
  attempts : Int
  released : Bool
  result : FlashResult
deriving DecidableEq, Repr

/-- The `while flash_attempt < flash_retries` loop of
`DevicesManager._flash` (`devices_manager.py` lines 244-265).
`attempt` is the Python `flash_attempt` counter (an `int`); `env a` is
the outcome of the write on attempt number `a` (1-based).  `fuel` bounds
the remaining iterations; `flash` below passes `retries.toNat`, which is
exactly the number of iterations the `while` loop performs, so the
fuel-exhausted branch coincides with the guard `attempt < retries`
failing (both return `None` having made `attempt` attempts). -/
def flash_loop (env : Int → FlashOutcome) (retries : Int) (attempt : Int) :
    Nat → FlashRes
  | 0 => ⟨attempt, false, .noneReturned⟩
  | fuel + 1 =>
    if attempt < retries then
      let a := attempt + 1
      match env a with
      | .ok => ⟨a, false, .deviceReturned⟩
      | .interrupt => ⟨a, false, .interrupted⟩
      | .error =>
        if retries - a = 0 then ⟨a, true, .reraised⟩
        else flash_loop env retries a fuel
    else ⟨attempt, false, .noneReturned⟩

/-- `DevicesManager._flash(args, device)` (`devices_manager.py` lines
240-265): `flash_attempt = 0`, `flash_retries = args.flash_retries`,
then the retry loop. -/
def flash (env : Int → FlashOutcome) (retries : Int) : FlashRes :=
  flash_loop env retries 0 retries.toNat

/-- `DevicesManager.try_flash_device(args, device)` (`devices_manager.py`
lines 234-238): with `args.noflash` the device is returned without any
write attempt, otherwise the result is that of `_flash`. -/
def try_flash_device (noflash : Bool) (env : Int → FlashOutcome)
    (retries : Int) : FlashRes :=
  if noflash then ⟨0, false, .deviceReturned⟩ else flash env retries

/-! ## Fleet-tier advisory reservation: `_reserve_device`
    (`daft/modes/common.py`, lines 26-66) -/

/-- One entry of the parsed `/etc/daft/devices.cfg`
(`get_bbb_config`, `daft/modes/common.py` lines 69-82): `device` is the
section name, `device_type` the section name with trailing digits and
underscores stripped. -/
structure BBDevice where
  device : String
  device_type : String
deriving DecidableEq, Repr

/-- One character of Python's `str.lower()` (the configured device and
selector names are ASCII section titles, where `lower()` maps `A`-`Z`
to `a`-`z` and leaves everything else unchanged). -/
def pyCharLower (c : Char) : Char :=
  if c.toNat ≥ 65 && c.toNat ≤ 90 then Char.ofNat (c.toNat + 32) else c

/-- Python's `str.lower()` on ASCII device/selector names. -/
def pyLower (s : String) : String := ⟨s.data.map pyCharLower⟩

/-- The candidate test of the sweep (`daft/modes/common.py` line 38):
`device["device_type"].lower() == dut or device["device"].lower() == dut`
where `dut` is already lower-cased. -/
def bb_matches (dut : String) (d : BBDevice) : Bool :=
  pyLower d.device_type == dut || pyLower d.device == dut

/-- Lock-file contents of the fleet tier, one file per device identity
under `/etc/daft/lockfiles/`, addressed by device name.  A missing file
is read as the empty string (the source opens it with mode `w+` which
truncates to empty). -/
def LockTable : Type := String → String

/-- The reserved sentinel written at `daft/modes/common.py` line 48. -/
def LOCKED_SENTINEL : String := "Locked\n"

/-- Claiming a candidate: write the reserved sentinel into its (empty)
lock file (`daft/modes/common.py` line 48). -/
def writeLock (locks : LockTable) (name : String) : LockTable :=
  fun n => if n == name then LOCKED_SENTINEL else locks n

/-- Outcome of the `for device in config:` sweep of `_reserve_device`
(`daft/modes/common.py` lines 37-54): either some candidate was claimed
and returned, or the loop finished carrying the final values of the
`dut_found` and `duts_blacklisted` flags. -/
inductive SweepStep where
  | claimed (d : BBDevice) (locks : LockTable)
  | swept (dutFound : Bool) (dutsBlacklisted : Bool)

/-- The body of one sweep over the candidate list
(`daft/modes/common.py` lines 37-54).  `dutFound` is the flag set at
line 39 (it persists across sweeps); `dutsBlacklisted` is the flag
initialised to `1` at line 36 and cleared at line 54 when a candidate's
content is exactly the sentinel. -/
def reserve_sweep (dut : String) (locks : LockTable) :
    List BBDevice → Bool → Bool → SweepStep
  | [], dutFound, dutsBlacklisted => .swept dutFound dutsBlacklisted
  | d :: rest, dutFound, dutsBlacklisted =>
    if bb_matches dut d then
      let contents := locks d.device
      if contents == "" then
        .claimed d (writeLock locks d.device)
      else if contents == LOCKED_SENTINEL then
        reserve_sweep dut locks rest true false
      else
        reserve_sweep dut locks rest true dutsBlacklisted
    else
      reserve_sweep dut locks rest dutFound dutsBlacklisted

/-- Outcome of `_reserve_device`.  `sleeps` counts how many
`time.sleep(10)` calls (line 66) happened before the outcome, so
`sleeps = 0` means the outcome was produced by the first sweep, without
retrying.  `outOfFuel` marks that the modelled `while True:` loop was
still sweeping when the iteration budget ran out (the source loop has no
exit of its own in that situation: it sleeps and re-sweeps forever until
the lock files change). -/
inductive ReserveDevOutcome where
  | reserved (d : BBDevice) (locks : LockTable) (sleeps : Nat)
  | nameError (sleeps : Nat)
  | blacklistedError (sleeps : Nat)
  | outOfFuel

/-- The `while True:` loop of `_reserve_device` (`daft/modes/common.py`
lines 35-66): sweep; then if `dut_found` is still false raise
`DeviceNameError` (lines 56-59); then if `duts_blacklisted` is still set
raise `DevicesBlacklistedError` (lines 61-64); otherwise sleep 10s and
sweep again.  In this embedding no other process mutates the lock files,
so the table is unchanged between sweeps. -/
def reserve_device_loop (dut : String) (cfg : List BBDevice)
    (locks : LockTable) (dutFound : Bool) (sleeps : Nat) :
    Nat → ReserveDevOutcome
  | 0 => .outOfFuel
  | fuel + 1 =>
    match reserve_sweep dut locks cfg dutFound true with
    | .claimed d locks' => .reserved d locks' sleeps
    | .swept found blacklisted =>
      if !found then .nameError sleeps
      else if blacklisted then .blacklistedError sleeps
      else reserve_device_loop dut cfg locks found (sleeps + 1) fuel

/-- `_reserve_device(args)` (`daft/modes/common.py` lines 26-66):
`dut = args.dut.lower()`, `dut_found = False`, then the sweep loop. -/
def reserve_device_run (argDut : String) (cfg : List BBDevice)
    (locks : LockTable) (fuel : Nat) : ReserveDevOutcome :=
  reserve_device_loop (pyLower argDut) cfg locks false 0 fuel

/-- `l.any` of the candidate test: whether any configured device matches
the selector. -/
def anyMatch (dut : String) (cfg : List BBDevice) : Bool :=
  cfg.any (bb_matches dut)

/-- Whether some matching candidate's lock file holds exactly the
reserved sentinel. -/
def anyLockedMatch (dut : String) (locks : LockTable)
    (cfg : List BBDevice) : Bool :=
  cfg.any (fun d => bb_matches dut d && (locks d.device == LOCKED_SENTINEL))

/-! ## Fleet-tier release and blacklist-on-failure
    (`daft/modes/common.py` lines 85-93, `daft/modes/flash_mode.py`
    lines 38-63) -/

/-- `release_device(beaglebone_dut)` (`daft/modes/common.py` lines
85-93): opens the device's lock file with mode `"w"` (truncating it) and
writes the empty string, so the resulting content is empty whatever it
was before. -/
def release_device (contents : String) : String := ""

/-- The blacklist line appended by `FlashMode.execute`
(`daft/modes/flash_mode.py` line 61). -/
def BLACKLIST_REASON : String := "Blacklisted because flashing failed\n"

/-- Appending the blacklist reason to the lock file
(`daft/modes/flash_mode.py` lines 59-62: `open(lockfile, "a")`). -/
def blacklist_lockfile (contents : String) : String :=
  contents ++ BLACKLIST_REASON

/-- Lock-file content evolution of `FlashMode.execute`
(`daft/modes/flash_mode.py` lines 38-63) on the path where
`self._flash_cycle` raises `FlashImageError` while the device is
reserved with content `contents`:

1. the exception propagates out of the `with reserve_device(...)` block,
   so the `finally:` of the `reserve_device` context manager
   (`daft/modes/common.py` lines 19-23) runs `release_device` first,
   clearing the file;
2. only then does control reach the `except FlashImageError:` handler in
   `execute`: with `--no-black-listing` it returns (nothing more is
   written), otherwise it appends `BLACKLIST_REASON` and re-raises. -/
def flash_mode_on_flash_error (noBlackListing : Bool) (contents : String) :
    String :=
  let afterScopedRelease := release_device contents
  if noBlackListing then afterScopedRelease
  else blacklist_lockfile afterScopedRelease

/-! ## Host-local reservation: `DevicesManager._do_reserve`
    (`aft/internal/devices_manager.py`, lines 161-194) -/

/-- Outcome of one `fcntl.flock(..., LOCK_EX | LOCK_NB)` acquisition
attempt (`devices_manager.py` lines 177-191): the lock is taken, or the
`IOError` is `EACCES`/`EAGAIN` (device busy), or it is any other
`IOError` (the source calls `sys.exit(-1)`). -/
inductive LockAttempt where
  | acquired
  | busy
  | fatal
deriving DecidableEq, Repr

/-- Result of one sweep of the `for device in devices:` loop
(`devices_manager.py` lines 172-191). -/
inductive SweepHostRes where
  | acquired (i : Nat)
  | exited
  | allBusy
deriving DecidableEq, Repr

/-- Sweep over the device indices in order; the first successful flock
wins and its device is returned, a fatal lock error exits the process. -/
def flock_sweep (att : Nat → LockAttempt) : List Nat → SweepHostRes
  | [] => .allBusy
  | i :: rest =>
    match att i with
    | .acquired => .acquired i
    | .busy => flock_sweep att rest
    | .fatal => .exited

/-- Outcome of `DevicesManager._do_reserve`.  `elapsed` is the modelled
time, in seconds, from the call to the outcome: each `time.sleep(10)` at
line 193 advances the clock by 10, every other step is instantaneous. -/
inductive ReserveHostOutcome where
  | reserved (i : Nat) (elapsed : Nat)
  | timedOut (elapsed : Nat)
  | exitedProcess (elapsed : Nat)
  | configError
deriving DecidableEq, Repr

/-- The `while time.time() - start < timeout:` loop of `_do_reserve`
(`devices_manager.py` lines 171-194).  `k` counts completed sweeps, so
the elapsed time at the top of the loop is `k * 10`.  `fuel` bounds the
iterations; `do_reserve` passes `T / 10 + 1`, which is exact: the guard
`k * 10 < T` is already false whenever the fuel runs out, so the
fuel-exhausted branch coincides with the `raise AFTTimeoutError` at
line 194. -/
def do_reserve_loop (env : Nat → Nat → LockAttempt) (n : Nat) (T : Nat)
    (k : Nat) : Nat → ReserveHostOutcome
  | 0 => .timedOut (k * 10)
  | fuel + 1 =>
    if k * 10 < T then
      match flock_sweep (env k) (List.range n) with
      | .acquired i => .reserved i (k * 10)
      | .exited => .exitedProcess (k * 10)
      | .allBusy => do_reserve_loop env n T (k + 1) fuel
    else .timedOut (k * 10)

/-- `DevicesManager._do_reserve(devices, name, timeout)`
(`devices_manager.py` lines 161-194): an empty candidate list raises
`AFTConfigurationError` at line 166; otherwise the sweep loop runs.
`n` is the number of candidate devices, `T` the timeout in seconds, and
`env k i` the outcome of the flock attempt on device `i` during sweep
`k`. -/
def do_reserve (env : Nat → Nat → LockAttempt) (n : Nat) (T : Nat) :
    ReserveHostOutcome :=
  if n = 0 then .configError else do_reserve_loop env n T 0 (T / 10 + 1)

/-! ## Host-local release: `DevicesManager._release`
    (`aft/internal/devices_manager.py`, lines 196-211) -/

/-- The slice of state `_release` touches: `lockEntries` is this
process's `self._lock_files` list (entry names only — every entry the
source ever appends is named `"daft_dut_lock"`), and `lockFile` is the
shared filesystem path `config.LOCK_FILE/daft_dut_lock`: `none` when no
file exists, `some h` when a file created by holder `h` exists (holder
`h`'s open flock handle lives on that file). -/
structure HostLockState where
  lockEntries : List String
  lockFile : Option Nat
deriving DecidableEq, Repr

/-- The `for i in self._lock_files: if i[0] == "daft_dut_lock": ...
remove ... break` of `_release` (`devices_manager.py` lines 201-205):
close and drop the first matching entry. -/
def remove_first_lock_entry : List String → List String
  | [] => []
  | x :: xs => if x == "daft_dut_lock" then xs else x :: remove_first_lock_entry xs

/-- `DevicesManager._release(reserved_device)` (`devices_manager.py`
lines 196-211): drop this process's first `daft_dut_lock` entry, then,
when a device was passed, `os.unlink` the shared lock path if a file is
present there — whoever created it. -/
def host_release (reservedDevice : Bool) (s : HostLockState) : HostLockState :=
  let entries := remove_first_lock_entry s.lockEntries
  if reservedDevice then
    match s.lockFile with
    | some _ => ⟨entries, none⟩
    | none => ⟨entries, none⟩
  else ⟨entries, s.lockFile⟩

/-- Another process acquiring the device (`devices_manager.py` lines
177-179): it creates the file at the shared lock path and flocks it.
Our process's `_lock_files` bookkeeping is untouched. -/
def host_acquire (h : Nat) (s : HostLockState) : HostLockState :=
  ⟨s.lockEntries, some h⟩

/-! ## SSH-key injection: `PCDevice._install_tester_public_key`
    (`aft/devices/pc_device.py`, lines 318-364) -/

/-- Events of `_install_tester_public_key`, recorded when the
corresponding remote call is made (even if the call then raises). -/
inductive KEv where
  | mountLayer
  | readPasswd
  | mkdirSsh
  | chmodSshDir
  | primaryWrite
  | primaryChmod
  | fallbackWrite
  | syncFs
  | umountRoot
  | umountSuper
deriving DecidableEq, Repr

/-- Environment of one `_install_tester_public_key` call: the outcome of
every remote execution it makes, in source order.

* `mount`       : `_mount_single_layer` / `_mount_two_layers`
* `readPasswd`  : the `cat /etc/passwd | grep ... | sed ...` pipeline
* `mkdirSsh`    : `mkdir -p <remote_ssh_dir>`
* `chmodSshDir` : `chmod 700 <remote_ssh_dir>`
* `primaryAppend`: `cat ~/.ssh/authorized_keys >> .../authorized_keys`
* `primaryChmod`: `chmod 600 .../authorized_keys`
* `fallbackAppend`: the dropbear `cat ... >> var/lib/dropbear/authorized_keys`
* `sync`        : `sync`
* `umountRoot`  : `umount /mnt/target_root/`
* `umountSuper` : `umount /mnt/super_target_root/` (hddimg only) -/
structure KeyEnv where
  mount : Outcome Unit
  readPasswd : Outcome Unit
  mkdirSsh : Outcome Unit
  chmodSshDir : Outcome Unit
  primaryAppend : Outcome Unit
  primaryChmod : Outcome Unit
  fallbackAppend : Outcome Unit
  sync : Outcome Unit
  umountRoot : Outcome Unit
  umountSuper : Outcome Unit
deriving DecidableEq, Repr

/-- The `sync` / `umount` tail of `_install_tester_public_key`
(`pc_device.py` lines 358-364), entered once the credential step has
finished without an exception. -/
def install_key_tail (usesHddimg : Bool) (env : KeyEnv)
    (t : List KEv) : List KEv × Outcome Unit :=
  let t1 := t ++ [KEv.syncFs]
  match env.sync with
  | .interrupt => (t1, .interrupt)
  | .error => (t1, .error)
  | .ok _ =>
    let t2 := t1 ++ [KEv.umountRoot]
    match env.umountRoot with
    | .interrupt => (t2, .interrupt)
    | .error => (t2, .error)
    | .ok _ =>
      if usesHddimg then
        let t3 := t2 ++ [KEv.umountSuper]
        match env.umountSuper with
        | .interrupt => (t3, .interrupt)
        | .error => (t3, .error)
        | .ok _ => (t3, .ok ())
      else (t2, .ok ())

/-- The dropbear fallback branch of `_install_tester_public_key`
(`pc_device.py` lines 349-356), followed by the common tail.  The
fallback call itself has no handler: its exception propagates and the
tail is skipped. -/
def install_key_fallback (usesHddimg : Bool) (env : KeyEnv)
    (t : List KEv) : List KEv × Outcome Unit :=
  let t' := t ++ [KEv.fallbackWrite]
  match env.fallbackAppend with
  | .interrupt => (t', .interrupt)
  | .error => (t', .error)
  | .ok _ => install_key_tail usesHddimg env t'

/-- `PCDevice._install_tester_public_key(image_file_name)`
(`pc_device.py` lines 318-364), as the trace of remote calls made and
the final outcome of the whole method.  The only handler in the source
is the `try: ... except Exception as e:` around the two primary
`authorized_keys` calls (lines 344-356): an ordinary exception there
falls to the dropbear fallback, a KeyboardInterrupt does not (it is not
an `Exception`).  Every other call has no handler, so its exception
propagates and nothing after it runs — in particular there is no
`finally`, so a failing fallback skips the `sync`/`umount` sequence at
lines 358-364. -/
def install_tester_public_key (usesHddimg : Bool) (env : KeyEnv) :
    List KEv × Outcome Unit :=
  let t1 := [KEv.mountLayer]
  match env.mount with
  | .interrupt => (t1, .interrupt)
  | .error => (t1, .error)
  | .ok _ =>
    let t2 := t1 ++ [KEv.readPasswd]
    match env.readPasswd with
    | .interrupt => (t2, .interrupt)
    | .error => (t2, .error)
    | .ok _ =>
      let t3 := t2 ++ [KEv.mkdirSsh]
      match env.mkdirSsh with
      | .interrupt => (t3, .interrupt)
      | .error => (t3, .error)
      | .ok _ =>
        let t4 := t3 ++ [KEv.chmodSshDir]
        match env.chmodSshDir with
        | .interrupt => (t4, .interrupt)
        | .error => (t4, .error)
        | .ok _ =>
          let t5 := t4 ++ [KEv.primaryWrite]
          match env.primaryAppend with
          | .interrupt => (t5, .interrupt)
          | .ok _ =>
            let t6 := t5 ++ [KEv.primaryChmod]
            match env.primaryChmod with
            | .interrupt => (t6, .interrupt)
            | .ok _ => install_key_tail usesHddimg env t6
            | .error => install_key_fallback usesHddimg env t6
          | .error => install_key_fallback usesHddimg env t5

/-! ## Concrete environments used by witnesses and counterexamples -/

/-- An `_enter_mode` attempt in which everything works and the DUT boots
into test mode (service-mode marker absent from `/proc/version`). -/
def attemptEnvSuccessTest : AttemptEnv :=
  ⟨.ok (), .ok (), true, .ok (), .ok (some "192.168.30.2"), .ok false, .ok ()⟩

/-- An `_enter_mode` attempt in which no responsive ip address is found
before the boot timeout: `wait_for_responsive_ip` returns `None`, and
the subsequent `verify_device_mode(None, ...)` reports the device not in
service mode. -/
def attemptEnvNoIp : AttemptEnv :=
  ⟨.ok (), .ok (), true, .ok (), .ok none, .ok false, .ok ()⟩

/-- An `_enter_mode` attempt hit by a KeyboardInterrupt while waiting
for a responsive ip address. -/
def attemptEnvInterruptWait : AttemptEnv :=
  ⟨.ok (), .ok (), true, .ok (), .interrupt, .ok false, .ok ()⟩

/-- Attempt environments: the first attempt finds no address, the second
succeeds. -/
def envsSucceedSecond : Nat → AttemptEnv :=
  fun i => if i == 1 then attemptEnvSuccessTest else attemptEnvNoIp

/-- Attempt environments in which no attempt ever succeeds. -/
def envsNeverSucceed : Nat → AttemptEnv := fun _ => attemptEnvNoIp

/-- Attempt environments: the first attempt fails, the second is hit by
a KeyboardInterrupt. -/
def envsInterruptSecond : Nat → AttemptEnv :=
  fun i => if i == 1 then attemptEnvInterruptWait else attemptEnvNoIp

/-- Image writes that fail on attempts 1 and 2 and succeed on 3. -/
def fenvThirdOk : Int → FlashOutcome :=
  fun i => if i == 3 then .ok else .error

/-- Image writes that always fail. -/
def fenvAlwaysError : Int → FlashOutcome := fun _ => .error

/-- Image writes: attempt 1 fails, attempt 2 is interrupted. -/
def fenvInterruptSecond : Int → FlashOutcome :=
  fun i => if i == 2 then .interrupt else .error

/-- A fleet device `pc1` of type `pc` (section name `pc1`, trailing
digits stripped for the type). -/
def bbPc1 : BBDevice := ⟨"pc1", "pc"⟩

/-- All fleet lock files empty (every device free). -/
def locksFree : LockTable := fun _ => ""

/-- All fleet lock files holding exactly the reserved sentinel. -/
def locksLockedAll : LockTable := fun _ => LOCKED_SENTINEL

/-- All fleet lock files blacklisted (sentinel plus reason line). -/
def locksBlacklistedAll : LockTable :=
  fun _ => LOCKED_SENTINEL ++ BLACKLIST_REASON

/-- Host-local lock attempts that always find the lock busy. -/
def attAllBusy : Nat → Nat → LockAttempt := fun _ _ => .busy

/-- Our process holds the host-local lock: one `daft_dut_lock`
bookkeeping entry, and the lock file on disk was created by us
(holder 0). -/
def hostStateOwn : HostLockState := ⟨["daft_dut_lock"], some 0⟩

/-- Key-injection environment in which both the `authorized_keys` write
and the dropbear fallback write fail; everything else would succeed. -/
def keyEnvBothFail : KeyEnv :=
  ⟨.ok (), .ok (), .ok (), .ok (), .error, .ok (), .error, .ok (), .ok (), .ok ()⟩

/-- Key-injection environment in which the `authorized_keys` write fails
and the dropbear fallback succeeds. -/
def keyEnvFallbackOk : KeyEnv :=
  ⟨.ok (), .ok (), .ok (), .ok (), .error, .ok (), .ok (), .ok (), .ok (), .ok ()⟩

/-! ## Helper lemmas: the `_enter_mode` retry loop -/

/-- A run of non-success, non-interrupt attempts just advances the
`_enter_mode` loop: starting at attempt `i` with `fuel` iterations left,
after `d` failing attempts the loop is at attempt `i + d` with `fuel - d`
iterations left. -/
theorem enter_mode_loop_skip (target : String) (envs : Nat → AttemptEnv) :
    ∀ (d i fuel : Nat),
      (∀ m, i ≤ m → m < i + d →
        (attemptRun target (envs m)).2 = .failure ∨
        (attemptRun target (envs m)).2 = .raised) →
      d ≤ fuel →
      enter_mode_loop target envs i fuel =
        enter_mode_loop target envs (i + d) (fuel - d) := by
  intro d
  induction d with
  | zero => intro i fuel _ _; simp
  | succ d ih =>
    intro i fuel hfail hle
    obtain ⟨f, rfl⟩ : ∃ f, fuel = f + 1 := ⟨fuel - 1, by omega⟩
    have h0 := hfail i (le_refl i) (by omega)
    have hstep : enter_mode_loop target envs i (f + 1) =
        enter_mode_loop target envs (i + 1) f := by
      rcases h0 with h | h <;> simp [enter_mode_loop, h]
    rw [hstep, ih (i + 1) f (fun m hm1 hm2 => hfail m (by omega) (by omega)) (by omega)]
    congr 1 <;> omega

/-- Unfolding `enter_mode` for a valid boot target. -/
theorem enter_mode_eq_loop (target : String) (envs : Nat → AttemptEnv)
    (retries : Nat) (hvalid : target = "test_mode" ∨ target = "service_mode") :
    enter_mode target envs retries = enter_mode_loop target envs 0 retries := by
  rcases hvalid with h | h <;> simp [enter_mode, h]

/-! ## Helper lemmas: the `_flash` retry loop -/

/-- A run of failing write attempts that does not exhaust the retry
budget just advances the `_flash` loop: after `d` more failing attempts
past counter value `a`, the loop is at counter `a + d` with `fuel - d`
iterations left. -/
theorem flash_loop_skip (env : Int → FlashOutcome) (retries : Int) :
    ∀ (d : Nat) (a : Int) (fuel : Nat),
      (∀ j : Nat, 1 ≤ j → j ≤ d → env (a + j) = .error ∧ a + j < retries) →
      d ≤ fuel →
      flash_loop env retries a fuel =
        flash_loop env retries (a + d) (fuel - d) := by
  intro d
  induction d with
  | zero => intro a fuel _ _; simp
  | succ d ih =>
    intro a fuel hfail hle
    obtain ⟨f, rfl⟩ : ∃ f, fuel = f + 1 := ⟨fuel - 1, by omega⟩
    obtain ⟨herr, hlt⟩ := hfail 1 le_rfl (by omega)
    have hguard : a < retries := by push_cast at hlt; omega
    have hne : ¬ (retries - (a + 1) = 0) := by push_cast at hlt; omega
    have hstep : flash_loop env retries a (f + 1) =
        flash_loop env retries (a + 1) f := by
      simp only [flash_loop, if_pos hguard]
      rw [show a + ((1 : Nat) : Int) = a + 1 by push_cast; ring] at herr
      rw [herr]
      simp [hne]
    rw [hstep, ih (a + 1) f ?_ (by omega)]
    · congr 1 <;> push_cast <;> [ring; omega]
    · intro j hj1 hj2
      obtain ⟨he, hl⟩ := hfail (j + 1) (by omega) (by omega)
      constructor
      · rw [show a + 1 + (j : Int) = a + ((j + 1 : Nat) : Int) by push_cast; ring]
        exact he
      · have : a + ((j + 1 : Nat) : Int) < retries := hl
        push_cast at this ⊢
        omega

/-! ## C1 -/

/-- C1: for `PCDevice._enter_mode`, if the environment makes the attempts
before attempt `k` fail (or raise a non-interrupt exception) and attempt
`k` succeed, with `1 ≤ k ≤ retries`, then `_enter_mode` returns success
after exactly `k` attempts; and if no attempt ever succeeds (or is
interrupted), it performs exactly `retries` attempts and then raises
`AFTDeviceError`. -/
theorem enter_mode_retry_spec (target : String) (envs : Nat → AttemptEnv)
    (R k : Nat) (hvalid : target = "test_mode" ∨ target = "service_mode") :
    (1 ≤ k → k ≤ R →
      (∀ i, i + 1 < k → (attemptRun target (envs i)).2 = .failure ∨
        (attemptRun target (envs i)).2 = .raised) →
      (attemptRun target (envs (k - 1))).2 = .success →
      enter_mode target envs R = .success k) ∧
    ((∀ i, i < R → (attemptRun target (envs i)).2 = .failure ∨
        (attemptRun target (envs i)).2 = .raised) →
      enter_mode target envs R = .deviceErrorExhausted R) := by
  constructor
  · intro hk1 hkR hfail hsucc
    rw [enter_mode_eq_loop target envs R hvalid]
    rw [enter_mode_loop_skip target envs (k - 1) 0 R
      (fun m hm1 hm2 => hfail m (by omega)) (by omega)]
    obtain ⟨f, hf⟩ : ∃ f, R - (k - 1) = f + 1 := ⟨R - k, by omega⟩
    rw [show 0 + (k - 1) = k - 1 by omega, hf]
    simp [enter_mode_loop, hsucc]
    omega
  · intro hall
    rw [enter_mode_eq_loop target envs R hvalid]
    rw [enter_mode_loop_skip target envs R 0 R
      (fun m hm1 hm2 => hall m (by omega)) le_rfl]
    simp [enter_mode_loop]

/-- C1 witness: with the concrete environments, success on the second of
4 attempts returns after exactly 2 attempts, and an environment that
never succeeds exhausts all 4 attempts and raises. -/
theorem enter_mode_retry_witness :
    enter_mode ("test_mode") envsSucceedSecond RETRY_ATTEMPTS = .success 2 ∧
    enter_mode ("test_mode") envsNeverSucceed RETRY_ATTEMPTS =
      .deviceErrorExhausted RETRY_ATTEMPTS := by
  constructor
  · exact (enter_mode_retry_spec ("test_mode") envsSucceedSecond RETRY_ATTEMPTS 2
      (Or.inl rfl)).1 (by omega) (by decide)
      (fun i hi => by
        have h0 : i = 0 := by omega
        subst h0
        exact Or.inl (by decide))
      (by decide)
  · exact (enter_mode_retry_spec ("test_mode") envsNeverSucceed RETRY_ATTEMPTS 1
      (Or.inl rfl)).2
      (fun i hi => Or.inl (by
        show (attemptRun ("test_mode") attemptEnvNoIp).2 = AttemptResult.failure
        decide))

/-! ## C2 -/

/-- C2: for `DevicesManager._flash` with `flash_retries = N ≥ 1`: if the
image write fails on attempts `1..N-1` and succeeds on attempt `N`,
exactly `N` write attempts occur and the device is returned (success);
if the write fails on every attempt, exactly `N` write attempts occur,
`self._release(device)` is called, and the last error is re-raised. -/
theorem flash_retry_spec (env : Int → FlashOutcome) (N : Int) :
    (1 ≤ N → (∀ i : Int, 1 ≤ i → i < N → env i = .error) → env N = .ok →
      flash env N = ⟨N, false, .deviceReturned⟩) ∧
    (1 ≤ N → (∀ i : Int, 1 ≤ i → i ≤ N → env i = .error) →
      flash env N = ⟨N, true, .reraised⟩) := by
  constructor
  · intro hN hmid hlast
    unfold flash
    rw [flash_loop_skip env N (N - 1).toNat 0 N.toNat
      (fun j hj1 hjd => ⟨hmid (0 + j) (by omega) (by omega), by omega⟩)
      (by omega)]
    rw [show (0 : Int) + ((N - 1).toNat : Int) = N - 1 by omega,
      show N.toNat - (N - 1).toNat = 1 by omega]
    simp only [flash_loop]
    rw [if_pos (by omega : (N - 1 : Int) < N), show N - 1 + 1 = N by ring, hlast]
  · intro hN hall
    unfold flash
    rw [flash_loop_skip env N (N - 1).toNat 0 N.toNat
      (fun j hj1 hjd => ⟨hall (0 + j) (by omega) (by omega), by omega⟩)
      (by omega)]
    rw [show (0 : Int) + ((N - 1).toNat : Int) = N - 1 by omega,
      show N.toNat - (N - 1).toNat = 1 by omega]
    simp only [flash_loop]
    rw [if_pos (by omega : (N - 1 : Int) < N), show N - 1 + 1 = N by ring,
      hall N (by omega) le_rfl]
    simp

/-- C2 witness: with `N = 3`, a write environment failing twice then
succeeding yields exactly 3 attempts and success without releasing; an
always-failing environment yields exactly 3 attempts, the release, and
the re-raise. -/
theorem flash_retry_witness :
    flash fenvThirdOk 3 = ⟨3, false, .deviceReturned⟩ ∧
    flash fenvAlwaysError 3 = ⟨3, true, .reraised⟩ := by
  constructor
  · exact (flash_retry_spec fenvThirdOk 3).1 (by omega)
      (fun i h1 h2 => by
        have h : i = 1 ∨ i = 2 := by omega
        rcases h with h | h <;> subst h <;> decide)
      (by decide)
  · exact (flash_retry_spec fenvAlwaysError 3).2 (by omega) (fun i _ _ => rfl)

/-! ## C3 -/

/-- C3: a KeyboardInterrupt during attempt `k` of the `_enter_mode`
retry loop (earlier attempts having failed) terminates the loop at
attempt `k` and propagates; a KeyboardInterrupt during write attempt `j`
of the `_flash` retry loop terminates it at attempt `j` and propagates
with `released = false` — `self._release(device)` is not called. -/
theorem interrupt_propagates_spec (target : String) (envs : Nat → AttemptEnv)
    (R k : Nat) (env : Int → FlashOutcome) (N j : Int)
    (hvalid : target = "test_mode" ∨ target = "service_mode") :
    (1 ≤ k → k ≤ R →
      (∀ i, i + 1 < k → (attemptRun target (envs i)).2 = .failure ∨
        (attemptRun target (envs i)).2 = .raised) →
      (attemptRun target (envs (k - 1))).2 = .interrupted →
      enter_mode target envs R = .interrupted k) ∧
    (1 ≤ j → j ≤ N → (∀ i : Int, 1 ≤ i → i < j → env i = .error) →
      env j = .interrupt →
      flash env N = ⟨j, false, .interrupted⟩) := by
  constructor
  · intro hk1 hkR hfail hint
    rw [enter_mode_eq_loop target envs R hvalid]
    rw [enter_mode_loop_skip target envs (k - 1) 0 R
      (fun m hm1 hm2 => hfail m (by omega)) (by omega)]
    obtain ⟨f, hf⟩ : ∃ f, R - (k - 1) = f + 1 := ⟨R - k, by omega⟩
    rw [show 0 + (k - 1) = k - 1 by omega, hf]
    simp [enter_mode_loop, hint]
    omega
  · intro hj1 hjN hmid hint
    unfold flash
    rw [flash_loop_skip env N (j - 1).toNat 0 N.toNat
      (fun m hm1 hmd => ⟨hmid (0 + m) (by omega) (by omega), by omega⟩)
      (by omega)]
    obtain ⟨f, hf⟩ : ∃ f, N.toNat - (j - 1).toNat = f + 1 :=
      ⟨N.toNat - j.toNat, by omega⟩
    rw [show (0 : Int) + ((j - 1).toNat : Int) = j - 1 by omega, hf]
    simp only [flash_loop]
    rw [if_pos (by omega : (j - 1 : Int) < N), show j - 1 + 1 = j by ring, hint]

/-- C3 witness: interrupt on the 2nd of 4 mode-entry attempts stops the
loop after 2 attempts; interrupt on the 2nd of 4 flash attempts stops
the loop after 2 attempts without a release. -/
theorem interrupt_propagates_witness :
    enter_mode ("test_mode") envsInterruptSecond RETRY_ATTEMPTS = .interrupted 2 ∧
    flash fenvInterruptSecond 4 = ⟨2, false, .interrupted⟩ := by
  constructor
  · exact (interrupt_propagates_spec ("test_mode") envsInterruptSecond
      RETRY_ATTEMPTS 2 fenvInterruptSecond 4 2 (Or.inl rfl)).1
      (by omega) (by decide)
      (fun i hi => by
        have h0 : i = 0 := by omega
        subst h0
        exact Or.inl (by decide))
      (by decide)
  · exact (interrupt_propagates_spec ("test_mode") envsInterruptSecond
      RETRY_ATTEMPTS 2 fenvInterruptSecond 4 2 (Or.inl rfl)).2
      (by omega) (by omega)
      (fun i h1 h2 => by
        have h : i = 1 := by omega
        subst h
        decide)
      (by decide)

/-! ## C10 -/

/-- C10: invoking `DevicesManager._flash` with `flash_retries ≤ 0` never
runs the loop body: zero write attempts, no error raised, no release of
the reservation, and `None` is returned instead of the device handle
(likewise through `try_flash_device` without `--noflash`). -/
theorem flash_nonpositive_retries_spec (env : Int → FlashOutcome) (N : Int)
    (h : N ≤ 0) :
    flash env N = ⟨0, false, .noneReturned⟩ ∧
    try_flash_device false env N = ⟨0, false, .noneReturned⟩ := by
  have h0 : N.toNat = 0 := Int.toNat_of_nonpos h
  refine ⟨?_, ?_⟩ <;> simp [try_flash_device, flash, h0, flash_loop]

/-- C10 witness: with `flash_retries = -1` and an always-failing writer,
`_flash` makes zero attempts, releases nothing, and returns `None`. -/
theorem flash_nonpositive_retries_witness :
    flash fenvAlwaysError (-1) = ⟨0, false, .noneReturned⟩ :=
  (flash_nonpositive_retries_spec fenvAlwaysError (-1) (by omega)).1

/-! ## Helper lemmas: the fleet-tier reservation sweep -/

/-- If `d` is the first matching candidate whose lock file is empty (no
earlier matching candidate is free), the sweep claims exactly `d`:
it writes the reserved sentinel into `d`'s lock file and returns. -/
theorem reserve_sweep_claims (dut : String) (locks : LockTable) (d : BBDevice)
    (hmatch : bb_matches dut d = true) (hempty : locks d.device = "") :
    ∀ (pre : List BBDevice) (post : List BBDevice) (found blk : Bool),
      (∀ d' ∈ pre, bb_matches dut d' = true → locks d'.device ≠ "") →
      reserve_sweep dut locks (pre ++ d :: post) found blk =
        .claimed d (writeLock locks d.device) := by
  intro pre
  induction pre with
  | nil =>
    intro post found blk _
    simp [reserve_sweep, hmatch, hempty]
  | cons x pre ih =>
    intro post found blk hpre
    have hrec := fun found' blk' =>
      ih post found' blk' (fun d' hd' => hpre d' (by simp [hd']))
    by_cases hx : bb_matches dut x = true
    · have hne : locks x.device ≠ "" := hpre x (by simp) hx
      have hbe : (locks x.device == "") = false := by simp [hne]
      by_cases hs : (locks x.device == LOCKED_SENTINEL) = true
      · simp only [List.cons_append, reserve_sweep, hx, hbe, hs]
        simp [hrec]
      · simp only [List.cons_append, reserve_sweep, hx, hbe,
          Bool.not_eq_true] at *
        simp [hs, hrec]
    · simp only [List.cons_append, reserve_sweep]
      simp [hx, hrec]

/-- If no candidate in `l` has an empty lock file, the sweep finishes,
`dut_found` ends up set iff it was set or some candidate matches, and
`duts_blacklisted` stays set iff it was set and no matching candidate's
content is exactly the reserved sentinel. -/
theorem reserve_sweep_done (dut : String) (locks : LockTable) :
    ∀ (l : List BBDevice) (found blk : Bool),
      (∀ d' ∈ l, bb_matches dut d' = true → locks d'.device ≠ "") →
      reserve_sweep dut locks l found blk =
        .swept (found || anyMatch dut l) (blk && !anyLockedMatch dut locks l) := by
  intro l
  induction l with
  | nil =>
    intro found blk _
    simp [reserve_sweep, anyMatch, anyLockedMatch]
  | cons x rest ih =>
    intro found blk hl
    have hrest := fun found' blk' =>
      ih found' blk' (fun d' hd' => hl d' (by simp [hd']))
    cases hx : bb_matches dut x with
    | false =>
      simp [reserve_sweep, hx, hrest, anyMatch, anyLockedMatch]
    | true =>
      have hne : locks x.device ≠ "" := hl x (by simp) hx
      have hbe : (locks x.device == "") = false := by simp [hne]
      cases hs : (locks x.device == LOCKED_SENTINEL) with
      | false =>
        simp [reserve_sweep, hx, hbe, hs, hrest, anyMatch, anyLockedMatch]
      | true =>
        simp [reserve_sweep, hx, hbe, hs, hrest, anyMatch, anyLockedMatch]

/-- When every matching candidate's lock file holds exactly the reserved
sentinel (and at least one candidate matches), `_reserve_device` keeps
sweeping forever: with any iteration budget it is still sweeping when
the budget runs out. -/
theorem reserve_loop_all_locked (dut : String) (cfg : List BBDevice)
    (locks : LockTable)
    (hall : ∀ d' ∈ cfg, bb_matches dut d' = true →
      locks d'.device = LOCKED_SENTINEL)
    (hmatch : anyMatch dut cfg = true) :
    ∀ (fuel : Nat) (found : Bool) (sleeps : Nat),
      reserve_device_loop dut cfg locks found sleeps fuel = .outOfFuel := by
  have hne : ∀ d' ∈ cfg, bb_matches dut d' = true → locks d'.device ≠ "" := by
    intro d' hd' hm
    rw [hall d' hd' hm]
    simp [LOCKED_SENTINEL]
  have hex : ∃ d' ∈ cfg, bb_matches dut d' = true := by
    simpa [anyMatch, List.any_eq_true] using hmatch
  have hlm : anyLockedMatch dut locks cfg = true := by
    obtain ⟨d', hd', hm⟩ := hex
    simp only [anyLockedMatch, List.any_eq_true]
    exact ⟨d', hd', by simp [hm, hall d' hd' hm]⟩
  intro fuel
  induction fuel with
  | zero => intro found sleeps; rfl
  | succ fuel ih =>
    intro found sleeps
    simp only [reserve_device_loop]
    rw [reserve_sweep_done dut locks cfg found true hne]
    simp [hmatch, hlm, ih]

/-! ## C4 -/

/-- C4: for the fleet-tier reservation sweep of `_reserve_device`:
(1) the first matching candidate with an empty lock file is claimed —
the reserved sentinel is written into its lock file (other lock files
untouched) and it is returned on the first sweep, without sleeping;
(2) when every matching candidate is reserved (content exactly the
sentinel), the sweep keeps going forever (sleep then re-sweep, for any
iteration budget);
(3) when the selector matches no configured device, `DeviceNameError` is
raised on the first sweep, without retrying;
(4) when every matching candidate is blacklisted (non-empty content
other than the sentinel), `DevicesBlacklistedError` is raised. -/
theorem fleet_reserve_sweep_spec (argDut : String)
    (cfg pre post : List BBDevice) (d : BBDevice) (locks : LockTable)
    (fuel : Nat) :
    (cfg = pre ++ d :: post →
      bb_matches (pyLower argDut) d = true →
      locks d.device = "" →
      (∀ d' ∈ pre, bb_matches (pyLower argDut) d' = true → locks d'.device ≠ "") →
      reserve_device_run argDut cfg locks (fuel + 1) =
        .reserved d (writeLock locks d.device) 0) ∧
    ((∀ d' ∈ cfg, bb_matches (pyLower argDut) d' = true →
        locks d'.device = LOCKED_SENTINEL) →
      anyMatch (pyLower argDut) cfg = true →
      reserve_device_run argDut cfg locks fuel = .outOfFuel) ∧
    ((∀ d' ∈ cfg, bb_matches (pyLower argDut) d' = false) →
      reserve_device_run argDut cfg locks (fuel + 1) = .nameError 0) ∧
    ((∀ d' ∈ cfg, bb_matches (pyLower argDut) d' = true →
        locks d'.device ≠ "" ∧ locks d'.device ≠ LOCKED_SENTINEL) →
      anyMatch (pyLower argDut) cfg = true →
      reserve_device_run argDut cfg locks (fuel + 1) = .blacklistedError 0) := by
  refine ⟨?_, ?_, ?_, ?_⟩
  · intro hcfg hm he hpre
    subst hcfg
    unfold reserve_device_run
    simp only [reserve_device_loop]
    rw [reserve_sweep_claims (pyLower argDut) locks d hm he pre post false true hpre]
  · intro hall hmatch
    exact reserve_loop_all_locked (pyLower argDut) cfg locks hall hmatch fuel false 0
  · intro hnone
    have h1 : ∀ d' ∈ cfg, bb_matches (pyLower argDut) d' = true →
        locks d'.device ≠ "" := by
      intro d' hd' hm
      rw [hnone d' hd'] at hm
      exact absurd hm (by simp)
    have h2 : anyMatch (pyLower argDut) cfg = false := by
      simp only [anyMatch, List.any_eq_false]
      intro d' hd'
      simp [hnone d' hd']
    unfold reserve_device_run
    simp only [reserve_device_loop]
    rw [reserve_sweep_done (pyLower argDut) locks cfg false true h1]
    simp [h2]
  · intro hbl hmatch
    have h1 : ∀ d' ∈ cfg, bb_matches (pyLower argDut) d' = true →
        locks d'.device ≠ "" := fun d' hd' hm => (hbl d' hd' hm).1
    have hlm : anyLockedMatch (pyLower argDut) locks cfg = false := by
      simp only [anyLockedMatch, List.any_eq_false]
      intro d' hd'
      by_cases hm : bb_matches (pyLower argDut) d' = true
      · simp [hm, (hbl d' hd' hm).2]
      · simp [hm]
    unfold reserve_device_run
    simp only [reserve_device_loop]
    rw [reserve_sweep_done (pyLower argDut) locks cfg false true h1]
    simp [hmatch, hlm]

/-- C4 witness: concrete sweeps over the single configured device `pc1`:
a free lock file is claimed with the sentinel on the first sweep; an
all-reserved pool keeps the sweep going; an unknown selector raises
`DeviceNameError` on the first sweep; an all-blacklisted pool raises
`DevicesBlacklistedError` on the first sweep. -/
theorem fleet_reserve_sweep_witness :
    reserve_device_run ("PC1") [bbPc1] locksFree 1 =
      .reserved bbPc1 (writeLock locksFree bbPc1.device) 0 ∧
    reserve_device_run ("PC1") [bbPc1] locksLockedAll 2 = .outOfFuel ∧
    reserve_device_run ("zz") [bbPc1] locksFree 1 = .nameError 0 ∧
    reserve_device_run ("PC1") [bbPc1] locksBlacklistedAll 1 =
      .blacklistedError 0 := by
  refine ⟨?_, ?_, ?_, ?_⟩
  · exact (fleet_reserve_sweep_spec ("PC1") [bbPc1] [] [] bbPc1 locksFree 0).1
      rfl (by decide) rfl (by simp)
  · exact (fleet_reserve_sweep_spec ("PC1") [bbPc1] [] [] bbPc1
      locksLockedAll 2).2.1 (fun d' hd' hm => rfl) (by decide)
  · exact (fleet_reserve_sweep_spec ("zz") [bbPc1] [] [] bbPc1 locksFree 0).2.2.1
      (fun d' hd' => by
        have h : d' = bbPc1 := by simpa using hd'
        subst h
        decide)
  · exact (fleet_reserve_sweep_spec ("PC1") [bbPc1] [] [] bbPc1
      locksBlacklistedAll 0).2.2.2
      (fun d' hd' hm =>
        ⟨by
          show LOCKED_SENTINEL ++ BLACKLIST_REASON ≠ ""
          decide,
         by
          show LOCKED_SENTINEL ++ BLACKLIST_REASON ≠ LOCKED_SENTINEL
          decide⟩)
      (by decide)

/-! ## C5 -/

/-- C5 counterexample: after a remote flash failure with blacklisting
enabled, starting from a lock file holding the reserved sentinel, the
final lock-file content is the bare reason line — not the sentinel
followed by the reason, as the claim states: the scoped release of the
`with reserve_device(...)` block cleared the sentinel before the
`except FlashImageError:` handler appended the reason. -/
theorem flash_blacklist_counterexample :
    flash_mode_on_flash_error false LOCKED_SENTINEL = BLACKLIST_REASON ∧
    flash_mode_on_flash_error false LOCKED_SENTINEL ≠
      LOCKED_SENTINEL ++ BLACKLIST_REASON := by
  constructor
  · show blacklist_lockfile ("") = BLACKLIST_REASON
    decide
  · show blacklist_lockfile ("") ≠ LOCKED_SENTINEL ++ BLACKLIST_REASON
    decide

/-- C5 (amended): on a fleet flash failure the scoped release runs
first and clears the lock file; with blacklisting enabled the reason
line is then appended, so the final content is exactly the reason line —
which is still non-empty and differs from the reserved sentinel, hence
is treated as blacklisted by future sweeps; with `--no-black-listing`
the lock file is simply left cleared. -/
theorem flash_mode_blacklist_spec (contents : String) :
    flash_mode_on_flash_error true contents = "" ∧
    flash_mode_on_flash_error false contents = BLACKLIST_REASON ∧
    BLACKLIST_REASON ≠ "" ∧
    BLACKLIST_REASON ≠ LOCKED_SENTINEL := by
  refine ⟨rfl, ?_, by decide, by decide⟩
  show blacklist_lockfile ("") = BLACKLIST_REASON
  decide

/-! ## Helper lemmas: the host-local reservation loop -/

/-- If no flock attempt ends in a fatal lock error, the sweep never
exits the process. -/
theorem flock_sweep_no_fatal (att : Nat → LockAttempt)
    (h : ∀ i, att i ≠ .fatal) :
    ∀ l : List Nat, flock_sweep att l ≠ .exited := by
  intro l
  induction l with
  | nil => simp [flock_sweep]
  | cons i rest ih =>
    cases hatt : att i with
    | acquired => simp [flock_sweep, hatt]
    | busy => simpa [flock_sweep, hatt] using ih
    | fatal => exact absurd hatt (h i)

/-- Timing invariant of the `_do_reserve` sweep loop: entering the loop
at sweep `k` with elapsed time `k * 10 < T + 10`, the loop either
returns a device or raises the timeout, in both cases strictly within
`T + 10` seconds of the original call. -/
theorem do_reserve_loop_bounded (env : Nat → Nat → LockAttempt) (n T : Nat)
    (hnf : ∀ k i, env k i ≠ .fatal) :
    ∀ (fuel k : Nat), k * 10 < T + 10 →
      (∃ i e, do_reserve_loop env n T k fuel = .reserved i e ∧ e < T + 10) ∨
      (∃ e, do_reserve_loop env n T k fuel = .timedOut e ∧ e < T + 10) := by
  intro fuel
  induction fuel with
  | zero =>
    intro k hk
    exact Or.inr ⟨k * 10, rfl, hk⟩
  | succ fuel ih =>
    intro k hk
    by_cases hg : k * 10 < T
    · cases hsw : flock_sweep (env k) (List.range n) with
      | acquired i =>
        exact Or.inl ⟨i, k * 10, by simp [do_reserve_loop, hg, hsw], by omega⟩
      | exited =>
        exact absurd hsw (flock_sweep_no_fatal (env k) (fun i => hnf k i) _)
      | allBusy =>
        rcases ih (k + 1) (by omega) with ⟨i, e, he, hlt⟩ | ⟨e, he, hlt⟩
        · exact Or.inl ⟨i, e, by simp [do_reserve_loop, hg, hsw, he], hlt⟩
        · exact Or.inr ⟨e, by simp [do_reserve_loop, hg, hsw, he], hlt⟩
    · exact Or.inr ⟨k * 10, by simp [do_reserve_loop, hg], by omega⟩

/-! ## C6 -/

/-- C6: under the timing model in which each `time.sleep(10)` advances
the clock by the 10-second sweep interval and every other step is
instantaneous, `DevicesManager._do_reserve` over a non-empty candidate
list whose lock attempts never hit a fatal lock error either returns a
device or raises `AFTTimeoutError`, in both cases strictly within
`timeout + 10` seconds of the call. -/
theorem do_reserve_bounded (env : Nat → Nat → LockAttempt) (n T : Nat)
    (hn : 0 < n) (hnf : ∀ k i, env k i ≠ .fatal) :
    (∃ i e, do_reserve env n T = .reserved i e ∧ e < T + 10) ∨
    (∃ e, do_reserve env n T = .timedOut e ∧ e < T + 10) := by
  have h := do_reserve_loop_bounded env n T hnf (T / 10 + 1) 0 (by omega)
  have hne : ¬ n = 0 := by omega
  simpa [do_reserve, hne] using h

/-- C6 witness: one candidate device whose lock is always held, with
`timeout = 5`: `_do_reserve` raises the timeout after 10 seconds —
within 5 seconds plus one 10-second sweep interval. -/
theorem do_reserve_bounded_witness :
    ((∃ i e, do_reserve attAllBusy 1 5 = .reserved i e ∧ e < 5 + 10) ∨
      (∃ e, do_reserve attAllBusy 1 5 = .timedOut e ∧ e < 5 + 10)) ∧
    do_reserve attAllBusy 1 5 = .timedOut 10 := by
  constructor
  · exact do_reserve_bounded attAllBusy 1 5 (by omega)
      (fun k i => by simp [attAllBusy])
  · decide

/-! ## Helper lemmas: the host-local release -/

/-- Removing the first `daft_dut_lock` entry from a list without one is
the identity. -/
theorem remove_first_lock_entry_of_not_mem :
    ∀ l : List String, "daft_dut_lock" ∉ l → remove_first_lock_entry l = l := by
  intro l
  induction l with
  | nil => intro _; rfl
  | cons x xs ih =>
    intro h
    have hx : x ≠ "daft_dut_lock" := fun heq => h (by simp [heq])
    have hbe : (x == "daft_dut_lock") = false := by simp [hx]
    simp [remove_first_lock_entry, hbe, ih (fun hm => h (by simp [hm]))]

/-- `_release` with a device always drops the first bookkeeping entry
and leaves no lock file on disk (it unlinks whatever file is there). -/
theorem host_release_true_eq (s : HostLockState) :
    host_release true s = ⟨remove_first_lock_entry s.lockEntries, none⟩ := by
  cases s with
  | mk e f => cases f <;> simp [host_release]

/-! ## C8 -/

/-- C8 counterexample: our process releases, another holder (holder 1)
then acquires the device — creating the lock file anew — and our second
release removes that holder's lock file: its `lockFile` is `none`
afterwards, not `some 1`, refuting "the second call never disturbs a
lock held by another holder who acquired the device between the two
calls". -/
theorem host_release_disturbs_counterexample :
    (host_acquire 1 (host_release true hostStateOwn)).lockFile = some 1 ∧
    (host_release true (host_acquire 1 (host_release true hostStateOwn))).lockFile
      = none := by
  decide

/-- C8 (amended): `_release` called twice in a row never raises (the
embedding is total: each open lock handle is closed at most once, and
the unlink is guarded by an existence check); with no intervening
acquisition the second call is a no-op; but when another holder acquired
the device between the two calls, the second call unlinks that holder's
lock file from the shared path. -/
theorem host_release_twice_spec (s : HostLockState)
    (honce : "daft_dut_lock" ∉ remove_first_lock_entry s.lockEntries) :
    host_release true (host_release true s) = host_release true s ∧
    ∀ h : Nat,
      (host_release true (host_acquire h (host_release true s))).lockFile
        = none := by
  constructor
  · rw [host_release_true_eq, host_release_true_eq]
    simp [remove_first_lock_entry_of_not_mem _ honce]
  · intro h
    rw [host_release_true_eq]

/-- C8 witness: with our process holding one claim, releasing twice is
a no-op the second time, and a second release after holder 5 re-acquired
clears holder 5's lock file (the amended behaviour). -/
theorem host_release_twice_witness :
    host_release true (host_release true hostStateOwn) =
      host_release true hostStateOwn ∧
    (host_release true (host_acquire 5 (host_release true hostStateOwn))).lockFile
      = none := by
  have h := host_release_twice_spec hostStateOwn (by decide)
  exact ⟨h.1, h.2 5⟩

/-! ## C7 -/

/-- C7 counterexample: an environment in which the `authorized_keys`
write and the dropbear fallback write both fail: the fallback was
attempted, the exception propagates out of `_install_tester_public_key`,
and the root partition is NOT unmounted — refuting "for every outcome of
the credential step the remotely mounted root partition is unmounted
afterward". -/
theorem install_key_counterexample :
    KEv.fallbackWrite ∈ (install_tester_public_key false keyEnvBothFail).1 ∧
    KEv.umountRoot ∉ (install_tester_public_key false keyEnvBothFail).1 ∧
    (install_tester_public_key false keyEnvBothFail).2 = .error := by
  decide

/-- C7 (amended): during credential injection (mount, passwd read and
`.ssh` preparation succeeding), if writing the SSH public key to the
standard credential store fails — at the append or at the `chmod 600` —
the key is written to the dropbear store; the mounted root partition is
unmounted afterward when the credential step ends without exception
(primary succeeded, or fallback succeeded after a primary failure) and
the `sync` succeeds; but when the fallback write also fails, the
exception propagates and the unmount is skipped. -/
theorem install_key_spec (usesHddimg : Bool) (env : KeyEnv)
    (hm : env.mount = .ok ()) (hp : env.readPasswd = .ok ())
    (hd : env.mkdirSsh = .ok ()) (hc : env.chmodSshDir = .ok ()) :
    (env.primaryAppend = .error →
      KEv.fallbackWrite ∈ (install_tester_public_key usesHddimg env).1) ∧
    (env.primaryAppend = .ok () → env.primaryChmod = .error →
      KEv.fallbackWrite ∈ (install_tester_public_key usesHddimg env).1) ∧
    (env.primaryAppend = .ok () → env.primaryChmod = .ok () → env.sync = .ok () →
      KEv.umountRoot ∈ (install_tester_public_key usesHddimg env).1) ∧
    (env.primaryAppend = .error → env.fallbackAppend = .ok () → env.sync = .ok () →
      KEv.umountRoot ∈ (install_tester_public_key usesHddimg env).1) ∧
    (env.primaryAppend = .error → env.fallbackAppend = .error →
      KEv.umountRoot ∉ (install_tester_public_key usesHddimg env).1 ∧
      (install_tester_public_key usesHddimg env).2 = .error) := by
  obtain ⟨mo, rp, mkd, chm, pa, pch, fb, sy, ur, us⟩ := env
  dsimp only at hm hp hd hc
  subst hm; subst hp; subst hd; subst hc
  refine ⟨?_, ?_, ?_, ?_, ?_⟩
  · intro hpa
    dsimp only at hpa
    subst hpa
    cases fb <;> cases sy <;> cases ur <;> cases us <;> cases usesHddimg <;>
      simp [install_tester_public_key, install_key_fallback, install_key_tail]
  · intro hpa hpch
    dsimp only at hpa hpch
    subst hpa; subst hpch
    cases fb <;> cases sy <;> cases ur <;> cases us <;> cases usesHddimg <;>
      simp [install_tester_public_key, install_key_fallback, install_key_tail]
  · intro hpa hpch hsy
    dsimp only at hpa hpch hsy
    subst hpa; subst hpch; subst hsy
    cases ur <;> cases us <;> cases usesHddimg <;>
      simp [install_tester_public_key, install_key_tail]
  · intro hpa hfb hsy
    dsimp only at hpa hfb hsy
    subst hpa; subst hfb; subst hsy
    cases ur <;> cases us <;> cases usesHddimg <;>
      simp [install_tester_public_key, install_key_fallback, install_key_tail]
  · intro hpa hfb
    dsimp only at hpa hfb
    subst hpa; subst hfb
    constructor <;>
      simp [install_tester_public_key, install_key_fallback]

/-- C7 witness: a run in which the primary write fails and the dropbear
fallback succeeds: the fallback is written and the root partition is
unmounted. -/
theorem install_key_witness :
    KEv.fallbackWrite ∈ (install_tester_public_key false keyEnvFallbackOk).1 ∧
    KEv.umountRoot ∈ (install_tester_public_key false keyEnvFallbackOk).1 := by
  have h := install_key_spec false keyEnvFallbackOk rfl rfl rfl rfl
  exact ⟨h.1 rfl, h.2.2.2.1 rfl rfl rfl⟩

/-! ## C9 -/

/-- C9 counterexample: an attempt in which `wait_for_responsive_ip`
completes but finds no responsive address (`waitIp = ok none`): the
remote boot-mode verification IS performed (the `verifyMode` call
appears in the attempt's trace) even though no address was found —
refuting "the remote boot-mode verification is performed only if a
responsive IP address was found in that attempt".  The attempt is still
not counted successful. -/
theorem verify_unconditional_counterexample :
    attemptEnvNoIp.waitIp = .ok none ∧
    Ev.verifyMode ∈ (attemptRun ("service_mode") attemptEnvNoIp).1 ∧
    (attemptRun ("service_mode") attemptEnvNoIp).2 ≠ .success := by
  decide

set_option maxHeartbeats 1000000 in
/-- C9 (amended): in each `_enter_mode` attempt the remote boot-mode
verification is performed exactly when every step before it completed
and the IP wait returned — whether or not it found an address (on no
address it is invoked with `None`); and the attempt is counted
successful (return, after the post-boot hooks) exactly when an address
was found AND the verified mode matches the target AND the attempt's
steps, including the post-boot hooks, raised no exception. -/
theorem attempt_verify_spec (target : String) (env : AttemptEnv) :
    (Ev.verifyMode ∈ (attemptRun target env).1 ↔
      (env.relay.isOk && env.powerCycle.isOk &&
        (!env.kbPresent || env.keystrokes.isOk) && env.waitIp.isOk) = true) ∧
    ((attemptRun target env).2 = .success ↔
      (env.relay = .ok () ∧ env.powerCycle = .ok () ∧
        (env.kbPresent = true → env.keystrokes = .ok ()) ∧
        (∃ ip, env.waitIp = .ok ip ∧ pyTruthy ip = true) ∧
        (∃ b, env.verify = .ok b ∧
          ((b && (target == "service_mode")) ||
            (!b && (target == "test_mode"))) = true) ∧
        env.hooks = .ok ())) := by
  obtain ⟨rl, pw, kb, ks, wip, vf, hk⟩ := env
  cases rl <;> cases pw <;> cases kb <;> cases ks <;>
    simp [attemptRun, Outcome.isOk, pyTruthy] <;>
  cases wip <;> cases vf <;> cases hk <;>
    simp [attemptRun, Outcome.isOk, pyTruthy] <;>
    (try (split <;> simp_all)) <;> tauto

/-- C9 witness: a fully successful test-mode attempt: the verification
is in the trace and the attempt is counted successful. -/
theorem attempt_verify_witness :
    Ev.verifyMode ∈ (attemptRun ("test_mode") attemptEnvSuccessTest).1 ∧
    (attemptRun ("test_mode") attemptEnvSuccessTest).2 = .success :=
  ⟨(attempt_verify_spec ("test_mode") attemptEnvSuccessTest).1.mpr (by decide),
   (attempt_verify_spec ("test_mode") attemptEnvSuccessTest).2.mpr
     ⟨rfl, rfl, fun _ => rfl, ⟨some "192.168.30.2", rfl, by decide⟩,
      ⟨false, rfl, by decide⟩, rfl⟩⟩
